import Mathlib

/-!
Verification development for the flask-server chat relay
(src/flask-server/server.py and src/flask-server/agent.py).

The Python source is shallowly embedded: the module-level mutable state
(`messages`, `sessions`) becomes an explicit `ServerState`, each socket
handler becomes a pure function `ServerState → ... → ServerState × List Emit`,
and the delayed bot responses spawned by `send_bot_response` become entries of
a `pending` list that a separate `deliver` event fires (mirroring the fact
that the spawned thread appends to the store and emits only after its sleep).
The external OpenAI/Exa backend is opaque; its possible results are abstracted
by a `BackendOutcome` value that selects which return path of
`NewsAgent._handle_assistant_conversation` is taken.
-/

/-- Characters removed by the Python `str.strip()` call in
`handle_send_message` (the ASCII whitespace class). -/
def isPyWhitespace (c : Char) : Bool :=
  c = ' ' || c = '\t' || c = '\n' || c = '\r' || c = '\x0b' || c = '\x0c'

/-- Model of Python `s.strip()`: remove leading and trailing whitespace. -/
def pyStrip (s : String) : String :=
  String.mk (((s.toList.dropWhile isPyWhitespace).reverse.dropWhile isPyWhitespace).reverse)

/-- One entry of `NewsAgent.preference_questions` (agent.py). -/
structure Question where
  key : String
  question : String
  description : String
deriving DecidableEq, Repr

/-- Default used with `List.getD`; every access in the embedded handlers is
guarded by an index check, matching the Python code which would raise
IndexError only out of range. -/
def qdefault : Question := ⟨"", "", ""⟩

/-- The `preference_questions` list of `NewsAgent.__init__` (agent.py),
verbatim. -/
def preference_questions : List Question :=
  [⟨"tone_of_voice",
    "Hi, before we begin, please answer some questions. \nWhat\x27s your preferred tone of voice? (formal, casual, enthusiastic)",
    "Preferred communication style"⟩,
   ⟨"response_format",
    "How do you like information presented? (bullet points, paragraphs)",
    "Response format preference"⟩,
   ⟨"language",
    "What\x27s your preferred language? (English, Spanish, etc.)",
    "Language preference"⟩,
   ⟨"interaction_style",
    "What\x27s your preferred interaction style? (concise, detailed)",
    "Level of detail preference"⟩,
   ⟨"news_topics",
    "What news topics interest you most? (technology, sports, politics, etc.)",
    "Preferred news topics"⟩]

/-- Number of onboarding questions. -/
def numQuestions : Nat := preference_questions.length

/-- The per-session `preferences` dict of server.py: five fixed keys, each
`None` or an answer string. -/
structure Prefs where
  tone_of_voice : Option String
  response_format : Option String
  language : Option String
  interaction_style : Option String
  news_topics : Option String
deriving DecidableEq, Repr

/-- The initial preferences dict (all values `None`). -/
def Prefs.init : Prefs := ⟨none, none, none, none, none⟩

/-- Model of `session[\x27preferences\x27][preference_key] = user_input`.
The keys written by the handlers are exactly the keys of
`preference_questions`, which are the five fields below. -/
def Prefs.set (p : Prefs) (k v : String) : Prefs :=
  if k = "tone_of_voice" then { p with tone_of_voice := some v }
  else if k = "response_format" then { p with response_format := some v }
  else if k = "language" then { p with language := some v }
  else if k = "interaction_style" then { p with interaction_style := some v }
  else if k = "news_topics" then { p with news_topics := some v }
  else p

/-- The per-client session dict of server.py. -/
structure Session where
  thread_id : Option String
  assistant_id : Option String
  preferences : Prefs
  preferences_complete : Bool
  current_preference_index : Nat
  message_count : Nat
deriving DecidableEq, Repr

/-- The fresh session dict built in `handle_connect`, in the lazy-create
branch of `handle_send_message`, and (for the reset fields) in
`handle_clear_chat`. -/
def Session.init : Session :=
  { thread_id := none
    assistant_id := none
    preferences := Prefs.init
    preferences_complete := false
    current_preference_index := 0
    message_count := 0 }

/-- A chat message as stored in the module-level `messages` list.
`id` and `timestamp` abstract `uuid.uuid4()` and `datetime.now()`: both are
drawn from a fresh counter in the state. -/
structure Message where
  id : Nat
  content : String
  author : String
  user_id : String
  timestamp : Nat
deriving DecidableEq, Repr

/-- A delayed bot response scheduled by `send_bot_response`: the spawned
thread will, after `delayMs` milliseconds, append a bot message with this
content and emit it to `target`. -/
structure Sched where
  target : String
  content : String
  delayMs : Nat
deriving DecidableEq, Repr

/-- Destination of an outbound socket emission: `broadcast=True` versus
`room=client_id`. -/
inductive Target where
  | all
  | toClient (cid : String)
deriving DecidableEq, Repr

/-- Outbound socket events of server.py, each carrying its destination. -/
inductive Emit where
  | connectionResponse (cid : String)
  | newMessage (t : Target) (m : Message)
  | errorMsg (cid : String) (text : String)
  | preferenceUpdate (cid : String) (key value : String)
  | preferencesReset (cid : String)
  | messageDeleted (mid : Nat)
  | chatCleared (clearedBy text : String)
deriving DecidableEq, Repr

/-- The whole module-level mutable state of server.py, plus the set of
delayed deliveries whose threads have been spawned but have not fired yet. -/
structure ServerState where
  messages : List Message
  sessions : List (String × Session)
  nextId : Nat
  pending : List Sched
deriving DecidableEq, Repr

/-- State at process start: empty store, no sessions, nothing pending. -/
def ServerState.init : ServerState := ⟨[], [], 0, []⟩

/-- Model of `sessions[client_id]` lookup (`client_id in sessions` test). -/
def lookupSession : List (String × Session) → String → Option Session
  | [], _ => none
  | (c, t) :: rest, cid => if c = cid then some t else lookupSession rest cid

/-- Model of `sessions[client_id] = s` (overwrite or insert). -/
def setSession : List (String × Session) → String → Session → List (String × Session)
  | [], cid, s => [(cid, s)]
  | (c, t) :: rest, cid, s =>
      if c = cid then (cid, s) :: rest else (c, t) :: setSession rest cid s

/-- Model of `del sessions[client_id]` in `handle_disconnect`. -/
def removeSession : List (String × Session) → String → List (String × Session)
  | [], _ => []
  | (c, t) :: rest, cid =>
      if c = cid then removeSession rest cid else (c, t) :: removeSession rest cid

/-- Session data dict returned by `NewsAgent.process_message`; the server
reads only the `thread_id` and `assistant_id` keys, whose presence is
modelled with `Option`. -/
structure SessionData where
  assistant_id : Option String
  thread_id : Option String
  error : Option String
deriving DecidableEq, Repr

/-- Abstraction of one round trip through the external OpenAI backend in
`NewsAgent._handle_assistant_conversation` (agent.py): each constructor
selects one of the return paths of that function, carrying the data the
backend produced on the way. -/
inductive BackendOutcome where
  | exn (e : String)
  | submitExn (aid tid e : String)
  | runFailed (aid tid status : String)
  | noMessages (aid tid : String)
  | noContent (aid tid : String)
  | completed (aid tid text : String)
deriving DecidableEq, Repr

/-- Return value of `NewsAgent._handle_assistant_conversation` on each of its
paths (agent.py lines 171-259): the reply string and the session-data dict. -/
def handleAssistantConversation (o : BackendOutcome) : String × SessionData :=
  match o with
  | .exn e =>
      let m := "Error in assistant conversation: " ++ e
      (m, ⟨none, none, some m⟩)
  | .submitExn aid tid e =>
      ("Error submitting tool outputs: " ++ e, ⟨some aid, some tid, some e⟩)
  | .runFailed aid tid status =>
      let m := "Assistant run failed with status: " ++ status
      (m, ⟨some aid, some tid, some m⟩)
  | .noMessages aid tid =>
      ("I apologize, but I couldn\x27t retrieve the response.",
       ⟨some aid, some tid, some "No messages in response"⟩)
  | .noContent aid tid =>
      ("I apologize, but I couldn\x27t generate a response.",
       ⟨some aid, some tid, some "No content in response"⟩)
  | .completed aid tid text => (text, ⟨some aid, some tid, none⟩)

/-- Model of `NewsAgent.process_message`. Its own `except` clause is dead
code in the source: the body it guards, `_handle_assistant_conversation`,
already catches every exception and returns an error string instead, so
`process_message` reduces to that call. The `thread_id`, `user_message` and
`preferences` arguments are consumed by the opaque backend, whose result the
`BackendOutcome` argument abstracts. -/
def process_message (thread_id : Option String) (user_message : String)
    (prefs : Prefs) (o : BackendOutcome) : String × SessionData :=
  handleAssistantConversation o

/-- Model of `send_bot_response` (server.py lines 75-98): spawn a daemon
thread that sleeps and then appends and emits a bot message. In the model
the spawned thread becomes a `pending` entry; a later `deliver` event fires
it. -/
def send_bot_response (st : ServerState) (cid content : String) (delayMs : Nat) : ServerState :=
  { st with pending := st.pending ++ [⟨cid, content, delayMs⟩] }

/-- Model of `process_with_news_agent` (server.py lines 192-215). The
`except` clause there is likewise unreachable because `process_message`
never raises; every outcome, failure included, becomes a scheduled bot
reply. -/
def process_with_news_agent (st : ServerState) (cid user_input : String)
    (o : BackendOutcome) : ServerState × List Emit :=
  match lookupSession st.sessions cid with
  | none => (st, [])
  | some session =>
      let r := process_message session.thread_id user_input session.preferences o
      let s1 := { session with
        thread_id := match r.2.thread_id with
          | some t => some t
          | none => session.thread_id
        assistant_id := match r.2.assistant_id with
          | some a => some a
          | none => session.assistant_id }
      (send_bot_response { st with sessions := setSession st.sessions cid s1 } cid r.1 500, [])

/-- The completion message sent when the last preference is collected
(server.py line 183). -/
def completionMessage : String :=
  "Great! I have all your preferences. Now I can help you with news and information. What would you like to know about?"

/-- Model of `handle_preference_collection` (server.py lines 158-190).
The `none` branch stands for the `KeyError` Python would raise on an absent
session; it is never reached from `step`, which always stores the session
first. -/
def handle_preference_collection (st : ServerState) (cid user_input : String)
    (o : BackendOutcome) : ServerState × List Emit :=
  match lookupSession st.sessions cid with
  | none => (st, [])
  | some session =>
      if session.current_preference_index < preference_questions.length then
        let q := preference_questions.getD session.current_preference_index qdefault
        let s1 := { session with
          preferences := Prefs.set session.preferences q.key user_input
          current_preference_index := session.current_preference_index + 1 }
        if preference_questions.length ≤ s1.current_preference_index then
          let s2 := { s1 with preferences_complete := true }
          (send_bot_response { st with sessions := setSession st.sessions cid s2 }
             cid completionMessage 500,
           [Emit.preferenceUpdate cid q.key user_input])
        else
          let nq := preference_questions.getD s1.current_preference_index qdefault
          (send_bot_response { st with sessions := setSession st.sessions cid s1 }
             cid nq.question 500,
           [Emit.preferenceUpdate cid q.key user_input])
      else
        process_with_news_agent st cid user_input o

/-- Model of `handle_send_message` (server.py lines 100-156). `raw` is the
value of `data.get(\x27content\x27, \x27\x27)`. -/
def handle_send_message (st : ServerState) (cid raw : String)
    (o : BackendOutcome) : ServerState × List Emit :=
  let content := pyStrip raw
  if content = "" then
    (st, [Emit.errorMsg cid "Message content cannot be empty"])
  else
    let session0 := (lookupSession st.sessions cid).getD Session.init
    let session := { session0 with message_count := session0.message_count + 1 }
    let userMsg : Message := ⟨st.nextId, content, "User", "user", st.nextId⟩
    let st1 : ServerState :=
      { st with
        sessions := setSession st.sessions cid session
        messages := st.messages ++ [userMsg]
        nextId := st.nextId + 1 }
    if session.message_count = 1 then
      (send_bot_response st1 cid (preference_questions.getD 0 qdefault).question 500,
       [Emit.newMessage Target.all userMsg])
    else if session.preferences_complete then
      let r := process_with_news_agent st1 cid content o
      (r.1, Emit.newMessage Target.all userMsg :: r.2)
    else
      let r := handle_preference_collection st1 cid content o
      (r.1, Emit.newMessage Target.all userMsg :: r.2)

/-- Result of the deletion scan loop in `handle_delete_message`. -/
inductive DeleteResult where
  | deleted (rest : List Message)
  | permissionDenied
  | notFound
deriving DecidableEq, Repr

/-- The scan loop of `handle_delete_message` (server.py lines 227-236): find
the first message with the given id; pop it when its `user_id` is `user`,
otherwise report a permission error; report not-found when no id matches. -/
def findDelete : List Message → Nat → DeleteResult
  | [], _ => .notFound
  | m :: rest, mid =>
      if m.id = mid then
        if m.user_id = "user" then .deleted rest else .permissionDenied
      else
        match findDelete rest mid with
        | .deleted rest' => .deleted (m :: rest')
        | .permissionDenied => .permissionDenied
        | .notFound => .notFound

/-- Model of `handle_delete_message` (server.py lines 217-245). `mid` is
`data.get(\x27message_id\x27)`. -/
def handle_delete_message (st : ServerState) (cid : String) (mid : Option Nat) :
    ServerState × List Emit :=
  match mid with
  | none => (st, [Emit.errorMsg cid "Message ID is required"])
  | some id =>
      match findDelete st.messages id with
      | .deleted rest => ({ st with messages := rest }, [Emit.messageDeleted id])
      | .permissionDenied => (st, [Emit.errorMsg cid "You can only delete your own messages"])
      | .notFound => (st, [Emit.errorMsg cid "Message not found"])

/-- Model of `handle_clear_chat` (server.py lines 247-276): empty the global
store, reset the requesting session when present, notify everyone. -/
def handle_clear_chat (st : ServerState) (cid : String) : ServerState × List Emit :=
  let message_count := st.messages.length
  let clearedEmit := Emit.chatCleared "User"
    ("Chat cleared (" ++ toString message_count ++ " messages removed)")
  match lookupSession st.sessions cid with
  | some s =>
      let s1 := { s with
        preferences_complete := false
        current_preference_index := 0
        message_count := 0
        preferences := Prefs.init }
      ({ st with messages := [], sessions := setSession st.sessions cid s1 },
       [Emit.preferencesReset cid, clearedEmit])
  | none => ({ st with messages := [] }, [clearedEmit])

/-- Model of `handle_connect` (server.py lines 39-64). -/
def handle_connect (st : ServerState) (cid : String) : ServerState × List Emit :=
  ({ st with sessions := setSession st.sessions cid Session.init },
   [Emit.connectionResponse cid])

/-- Model of `handle_disconnect` (server.py lines 66-73). -/
def handle_disconnect (st : ServerState) (cid : String) : ServerState × List Emit :=
  ({ st with sessions := removeSession st.sessions cid }, [])

/-- Firing of the delayed thread spawned inside `send_bot_response`: append
the bot message to the store and emit it to the one scheduled client
(`socketio.emit(..., room=client_id)`). The index `n` selects which of the
currently pending deliveries fires, so no ordering among them is assumed. -/
def deliverPending (st : ServerState) (n : Nat) : ServerState × List Emit :=
  match st.pending[n]? with
  | none => (st, [])
  | some d =>
      let botMsg : Message := ⟨st.nextId, d.content, "Assistant", "assistant", st.nextId⟩
      ({ st with
          messages := st.messages ++ [botMsg]
          pending := st.pending.eraseIdx n
          nextId := st.nextId + 1 },
       [Emit.newMessage (Target.toClient d.target) botMsg])

/-- An inbound event, as dispatched by the socket layer. `send` carries the
backend outcome consumed in case the message reaches the news agent. -/
inductive Event where
  | connect (cid : String)
  | disconnect (cid : String)
  | send (cid : String) (raw : String) (o : BackendOutcome)
  | deleteMsg (cid : String) (mid : Option Nat)
  | clearChat (cid : String)
  | deliver (n : Nat)
deriving DecidableEq, Repr

/-- One step of the server: dispatch an event to its handler. -/
def step (st : ServerState) (e : Event) : ServerState × List Emit :=
  match e with
  | .connect cid => handle_connect st cid
  | .disconnect cid => handle_disconnect st cid
  | .send cid raw o => handle_send_message st cid raw o
  | .deleteMsg cid mid => handle_delete_message st cid mid
  | .clearChat cid => handle_clear_chat st cid
  | .deliver n => deliverPending st n

/-- Run a list of events from a state, keeping only the state. -/
def runEvents : ServerState → List Event → ServerState
  | st, [] => st
  | st, e :: es => runEvents (step st e).1 es

/-- States reachable from process start by any event sequence. -/
inductive Reachable : ServerState → Prop where
  | base : Reachable ServerState.init
  | next {st : ServerState} (e : Event) : Reachable st → Reachable (step st e).1

/-- The per-session invariant claimed by the spec: the question index never
passes the question count, and the completion flag holds exactly at the
count. -/
def sessionOk (s : Session) : Prop :=
  s.current_preference_index ≤ numQuestions ∧
    (s.preferences_complete = true ↔ s.current_preference_index = numQuestions)

/-- All live sessions satisfy `sessionOk`. -/
def sessionsOk (ss : List (String × Session)) : Prop :=
  ∀ p ∈ ss, sessionOk p.2

/-- The session invariant over a whole server state. -/
def SessionInv (st : ServerState) : Prop :=
  sessionsOk st.sessions

/-- Whether an event makes the server store an onboarding answer for `cid`:
a nonempty send by `cid` that is not the first message of the session while
onboarding is incomplete. -/
def storesAnswer (st : ServerState) (e : Event) (cid : String) : Bool :=
  match e with
  | .send c raw _ =>
      c = cid ∧ pyStrip raw ≠ "" ∧
        (((lookupSession st.sessions c).getD Session.init).message_count + 1 ≠ 1) ∧
        ((lookupSession st.sessions c).getD Session.init).preferences_complete = false
  | _ => false

/-- Whether an event would drive `handle_send_message` into the fallback
branch of `handle_preference_collection` (the `else` that forwards to the
news agent although onboarding is incomplete). -/
def fallbackTaken (st : ServerState) (e : Event) : Bool :=
  match e with
  | .send c raw _ =>
      pyStrip raw ≠ "" ∧
        (((lookupSession st.sessions c).getD Session.init).message_count + 1 ≠ 1) ∧
        ((lookupSession st.sessions c).getD Session.init).preferences_complete = false ∧
        ¬ ((lookupSession st.sessions c).getD Session.init).current_preference_index
            < preference_questions.length
  | _ => false

/-- Whether the first list is an initial segment of the second. -/
def startsHere : List Char → List Char → Bool
  | [], _ => true
  | _ :: _, [] => false
  | p :: ps, c :: cs => p = c && startsHere ps cs

/-- Whether the pattern occurs contiguously anywhere in the text. -/
def occursIn (pat : List Char) : List Char → Bool
  | [] => startsHere pat []
  | c :: cs => startsHere pat (c :: cs) || occursIn pat cs

/-- A string counts as apologetic when it contains the stem of the word
apologize. Used to state the spec phrase about apologetic error replies. -/
def mentionsApology (s : String) : Bool :=
  occursIn "apolog".toList s.toList

/-- Backend outcomes the spec calls failures: everything except a completed
run that produced content. -/
def isBackendFailure : BackendOutcome → Bool
  | .completed _ _ _ => false
  | _ => true

/-- The reply string each failure path of the agent hands back, stated
directly from the return statements of agent.py. -/
def failureMessage : BackendOutcome → String
  | .exn e => "Error in assistant conversation: " ++ e
  | .submitExn _ _ e => "Error submitting tool outputs: " ++ e
  | .runFailed _ _ status => "Assistant run failed with status: " ++ status
  | .noMessages _ _ => "I apologize, but I couldn\x27t retrieve the response."
  | .noContent _ _ => "I apologize, but I couldn\x27t generate a response."
  | .completed _ _ text => text

theorem lookupSession_setSession_self (ss : List (String × Session)) (cid : String) (s : Session) :
    lookupSession (setSession ss cid s) cid = some s := by
  induction ss with
  | nil => simp [setSession, lookupSession]
  | cons hd tl ih =>
      obtain ⟨c, t⟩ := hd
      by_cases h : c = cid
      · simp [setSession, lookupSession, h]
      · simp [setSession, lookupSession, h, ih]

theorem lookupSession_setSession_ne (ss : List (String × Session)) {cid cid' : String}
    (s : Session) (h : cid' ≠ cid) :
    lookupSession (setSession ss cid s) cid' = lookupSession ss cid' := by
  induction ss with
  | nil => simp [setSession, lookupSession, Ne.symm h]
  | cons hd tl ih =>
      obtain ⟨c, t⟩ := hd
      by_cases hc : c = cid
      · subst hc
        simp [setSession, lookupSession, Ne.symm h]
      · simp [setSession, lookupSession, hc, ih]

theorem lookupSession_removeSession_self (ss : List (String × Session)) (cid : String) :
    lookupSession (removeSession ss cid) cid = none := by
  induction ss with
  | nil => simp [removeSession, lookupSession]
  | cons hd tl ih =>
      obtain ⟨c, t⟩ := hd
      by_cases h : c = cid
      · simp [removeSession, h, ih]
      · simp [removeSession, lookupSession, h, ih]

theorem lookupSession_removeSession_ne (ss : List (String × Session)) {cid cid' : String}
    (h : cid' ≠ cid) :
    lookupSession (removeSession ss cid) cid' = lookupSession ss cid' := by
  induction ss with
  | nil => simp [removeSession]
  | cons hd tl ih =>
      obtain ⟨c, t⟩ := hd
      by_cases hc : c = cid
      · subst hc
        simp [removeSession, lookupSession, Ne.symm h, ih]
      · simp [removeSession, lookupSession, hc, ih]

theorem mem_setSession {ss : List (String × Session)} {cid : String} {s : Session}
    {p : String × Session} (h : p ∈ setSession ss cid s) : p = (cid, s) ∨ p ∈ ss := by
  induction ss with
  | nil => simpa [setSession] using h
  | cons hd tl ih =>
      obtain ⟨c, t⟩ := hd
      by_cases hc : c = cid
      · simp only [setSession, if_pos hc, List.mem_cons] at h
        rcases h with h | h
        · exact Or.inl h
        · exact Or.inr (List.mem_cons_of_mem _ h)
      · simp only [setSession, if_neg hc, List.mem_cons] at h
        rcases h with h | h
        · exact Or.inr (h ▸ List.mem_cons_self _ _)
        · rcases ih h with h' | h'
          · exact Or.inl h'
          · exact Or.inr (List.mem_cons_of_mem _ h')

theorem mem_removeSession {ss : List (String × Session)} {cid : String}
    {p : String × Session} (h : p ∈ removeSession ss cid) : p ∈ ss := by
  induction ss with
  | nil => simpa [removeSession] using h
  | cons hd tl ih =>
      obtain ⟨c, t⟩ := hd
      by_cases hc : c = cid
      · simp only [removeSession, if_pos hc] at h
        exact List.mem_cons_of_mem _ (ih h)
      · simp only [removeSession, if_neg hc, List.mem_cons] at h
        rcases h with h | h
        · exact h ▸ List.mem_cons_self _ _
        · exact List.mem_cons_of_mem _ (ih h)

theorem lookupSession_mem {ss : List (String × Session)} {cid : String} {s : Session}
    (h : lookupSession ss cid = some s) : (cid, s) ∈ ss := by
  induction ss with
  | nil => simp [lookupSession] at h
  | cons hd tl ih =>
      obtain ⟨c, t⟩ := hd
      simp only [lookupSession] at h
      split at h
      · next hc =>
          injection h with h
          subst hc
          subst h
          exact List.mem_cons_self _ _
      · exact List.mem_cons_of_mem _ (ih h)

theorem setSession_setSession (ss : List (String × Session)) (cid : String) (a b : Session) :
    setSession (setSession ss cid a) cid b = setSession ss cid b := by
  induction ss with
  | nil => simp [setSession]
  | cons hd tl ih =>
      obtain ⟨c, t⟩ := hd
      by_cases hc : c = cid
      · simp [setSession, hc]
      · simp [setSession, hc, ih]

theorem sessionsOk_set {ss : List (String × Session)} {cid : String} {s : Session}
    (h : sessionsOk ss) (hs : sessionOk s) : sessionsOk (setSession ss cid s) := by
  intro p hp
  rcases mem_setSession hp with h' | h'
  · rw [h']
    exact hs
  · exact h p h'

theorem sessionsOk_remove {ss : List (String × Session)} {cid : String}
    (h : sessionsOk ss) : sessionsOk (removeSession ss cid) :=
  fun p hp => h p (mem_removeSession hp)

theorem sessionOk_init : sessionOk Session.init := by
  unfold sessionOk
  decide

theorem numQuestions_eq : numQuestions = 5 := rfl

/-- The user message record appended by a nonempty send. -/
def sendUserMessage (st : ServerState) (content : String) : Message :=
  ⟨st.nextId, content, "User", "user", st.nextId⟩

/-- Derived characterization of the session stored for the sender after a
nonempty `send_message`; `send_step_eq` proves it against the handlers. -/
def sendFinalSession (st : ServerState) (cid raw : String) (o : BackendOutcome) : Session :=
  let s0 := (lookupSession st.sessions cid).getD Session.init
  let s := { s0 with message_count := s0.message_count + 1 }
  if s.message_count = 1 then s
  else if s.preferences_complete then
    let r := process_message s.thread_id (pyStrip raw) s.preferences o
    { s with
      thread_id := match r.2.thread_id with
        | some t => some t
        | none => s.thread_id
      assistant_id := match r.2.assistant_id with
        | some a => some a
        | none => s.assistant_id }
  else if s.current_preference_index < preference_questions.length then
    { s with
      preferences := Prefs.set s.preferences
        (preference_questions.getD s.current_preference_index qdefault).key (pyStrip raw)
      current_preference_index := s.current_preference_index + 1
      preferences_complete :=
        if preference_questions.length ≤ s.current_preference_index + 1 then true
        else s.preferences_complete }
  else
    let r := process_message s.thread_id (pyStrip raw) s.preferences o
    { s with
      thread_id := match r.2.thread_id with
        | some t => some t
        | none => s.thread_id
      assistant_id := match r.2.assistant_id with
        | some a => some a
        | none => s.assistant_id }

/-- Derived characterization of the bot reply scheduled by a nonempty
`send_message`. -/
def sendReply (st : ServerState) (cid raw : String) (o : BackendOutcome) : String :=
  let s0 := (lookupSession st.sessions cid).getD Session.init
  let s := { s0 with message_count := s0.message_count + 1 }
  if s.message_count = 1 then (preference_questions.getD 0 qdefault).question
  else if s.preferences_complete then
    (process_message s.thread_id (pyStrip raw) s.preferences o).1
  else if s.current_preference_index < preference_questions.length then
    (if preference_questions.length ≤ s.current_preference_index + 1 then completionMessage
     else (preference_questions.getD (s.current_preference_index + 1) qdefault).question)
  else (process_message s.thread_id (pyStrip raw) s.preferences o).1

/-- Derived characterization of the emissions a nonempty `send_message`
produces after the broadcast of the stored user message. -/
def sendExtraEmits (st : ServerState) (cid raw : String) : List Emit :=
  let s0 := (lookupSession st.sessions cid).getD Session.init
  let s := { s0 with message_count := s0.message_count + 1 }
  if s.message_count = 1 then []
  else if s.preferences_complete then []
  else if s.current_preference_index < preference_questions.length then
    [Emit.preferenceUpdate cid
      (preference_questions.getD s.current_preference_index qdefault).key (pyStrip raw)]
  else []

theorem send_step_eq (st : ServerState) (cid raw : String) (o : BackendOutcome)
    (hne : ¬ pyStrip raw = "") :
    step st (.send cid raw o) =
      ({ st with
          sessions := setSession st.sessions cid (sendFinalSession st cid raw o)
          messages := st.messages ++ [sendUserMessage st (pyStrip raw)]
          nextId := st.nextId + 1
          pending := st.pending ++ [⟨cid, sendReply st cid raw o, 500⟩] },
       Emit.newMessage Target.all (sendUserMessage st (pyStrip raw)) ::
         sendExtraEmits st cid raw) := by
  simp only [step, handle_send_message, handle_preference_collection, process_with_news_agent,
    send_bot_response, sendFinalSession, sendReply, sendExtraEmits, sendUserMessage,
    lookupSession_setSession_self, setSession_setSession, if_neg hne]
  split_ifs <;> rfl

theorem sessions_handle_delete (st : ServerState) (cid : String) (mid : Option Nat) :
    (handle_delete_message st cid mid).1.sessions = st.sessions := by
  cases mid with
  | none => rfl
  | some id =>
      cases hfd : findDelete st.messages id <;> simp [handle_delete_message, hfd]

theorem sessions_deliverPending (st : ServerState) (n : Nat) :
    (deliverPending st n).1.sessions = st.sessions := by
  unfold deliverPending
  cases st.pending[n]? <;> rfl

/-- A session whose index and completion flag match another satisfies
`sessionOk` whenever the other does. -/
theorem sessionOk_of_fields {s s' : Session}
    (hidx : s'.current_preference_index = s.current_preference_index)
    (hcomp : s'.preferences_complete = s.preferences_complete)
    (h : sessionOk s) : sessionOk s' := by
  unfold sessionOk at h ⊢
  rw [hidx, hcomp]
  exact h

/-- The session stored for a sender by a nonempty send satisfies the
invariant whenever the session it started from did. -/
theorem sessionOk_sendFinalSession {st : ServerState} (h : SessionInv st)
    (cid raw : String) (o : BackendOutcome) :
    sessionOk (sendFinalSession st cid raw o) := by
  have hs0 : sessionOk ((lookupSession st.sessions cid).getD Session.init) := by
    cases hls : lookupSession st.sessions cid with
    | none => exact sessionOk_init
    | some s =>
        simpa using h _ (lookupSession_mem hls)
  simp only [sendFinalSession]
  split_ifs with h1 h2 h3 h4
  · exact sessionOk_of_fields rfl rfl hs0
  · exact sessionOk_of_fields rfl rfl hs0
  · -- the preference-collection branch storing the final answer
    obtain ⟨hle, hiff⟩ := hs0
    unfold sessionOk at *
    dsimp only
    simp only [numQuestions] at hle hiff ⊢
    refine ⟨by omega, ⟨fun _ => by omega, fun _ => trivial⟩⟩
  · -- the preference-collection branch with questions remaining
    obtain ⟨hle, hiff⟩ := hs0
    unfold sessionOk at *
    dsimp only
    simp only [numQuestions] at hle hiff ⊢
    exact ⟨by omega, ⟨fun hc => absurd hc h2, fun hc => absurd hc (by omega)⟩⟩
  · exact sessionOk_of_fields rfl rfl hs0

theorem sessionsOk_step {st : ServerState} (h : SessionInv st) (e : Event) :
    SessionInv (step st e).1 := by
  cases e with
  | connect cid =>
      simp only [step, handle_connect, SessionInv]
      exact sessionsOk_set h sessionOk_init
  | disconnect cid =>
      simp only [step, handle_disconnect, SessionInv]
      exact sessionsOk_remove h
  | send cid raw o =>
      by_cases hne : pyStrip raw = ""
      · simp only [step, handle_send_message, if_pos hne]
        exact h
      · rw [show (step st (.send cid raw o)).1 = _ from congrArg Prod.fst (send_step_eq st cid raw o hne)]
        exact sessionsOk_set h (sessionOk_sendFinalSession h cid raw o)
  | deleteMsg cid mid =>
      unfold SessionInv
      rw [show (step st (.deleteMsg cid mid)).1 = (handle_delete_message st cid mid).1 from rfl,
        sessions_handle_delete]
      exact h
  | clearChat cid =>
      simp only [step, handle_clear_chat]
      cases hls : lookupSession st.sessions cid with
      | none => exact h
      | some s =>
          refine sessionsOk_set h ⟨Nat.zero_le _, ?_⟩
          simp [numQuestions, preference_questions]
  | deliver n =>
      unfold SessionInv
      rw [show (step st (.deliver n)).1 = (deliverPending st n).1 from rfl, sessions_deliverPending]
      exact h

theorem sessionInv_init : SessionInv ServerState.init := by
  intro p hp
  cases hp

theorem sessionInv_of_reachable {st : ServerState} (h : Reachable st) : SessionInv st := by
  induction h with
  | base => exact sessionInv_init
  | next e _ ih => exact sessionsOk_step ih e

/-- Helper for steps that leave a session's onboarding fields unchanged. -/
theorem indexChange_same {s s' : Session} {b : Bool}
    (hidx : s'.current_preference_index = s.current_preference_index)
    (hcomp : s'.preferences_complete = s.preferences_complete)
    (hb : b = false) :
    (s'.current_preference_index = s.current_preference_index + 1 ↔ b = true) ∧
    ((s.preferences_complete = false ∧ s'.preferences_complete = true) ↔
      (b = true ∧ s'.current_preference_index = numQuestions)) := by
  subst hb
  constructor
  · rw [hidx]
    constructor
    · intro hh
      omega
    · intro hh
      cases hh
  · rw [hcomp]
    constructor
    · rintro ⟨hf, ht⟩
      rw [hf] at ht
      cases ht
    · rintro ⟨hf, _⟩
      cases hf

/-- Helper for steps that reset a session's onboarding fields to their
initial values. -/
theorem indexChange_reset {s s' : Session} {b : Bool}
    (hidx : s'.current_preference_index = 0)
    (hcomp : s'.preferences_complete = false)
    (hb : b = false) :
    (s'.current_preference_index = s.current_preference_index + 1 ↔ b = true) ∧
    ((s.preferences_complete = false ∧ s'.preferences_complete = true) ↔
      (b = true ∧ s'.current_preference_index = numQuestions)) := by
  subst hb
  constructor
  · rw [hidx]
    constructor
    · intro hh
      omega
    · intro hh
      cases hh
  · rw [hcomp]
    constructor
    · rintro ⟨_, ht⟩
      cases ht
    · rintro ⟨hf, _⟩
      cases hf

/-- For a session alive across a step, the question index grows by one
exactly when the step stores an onboarding answer for it, and the completion
flag flips to true exactly when that stored answer is the final one. -/
theorem stepIndexChange {st : ServerState} (hInv : SessionInv st) (e : Event) (cid : String)
    {s s' : Session}
    (hs : lookupSession st.sessions cid = some s)
    (hs' : lookupSession (step st e).1.sessions cid = some s') :
    (s'.current_preference_index = s.current_preference_index + 1 ↔
      storesAnswer st e cid = true) ∧
    ((s.preferences_complete = false ∧ s'.preferences_complete = true) ↔
      (storesAnswer st e cid = true ∧ s'.current_preference_index = numQuestions)) := by
  cases e with
  | connect c =>
      have hb : storesAnswer st (.connect c) cid = false := rfl
      simp only [step, handle_connect] at hs'
      by_cases hc : cid = c
      · subst hc
        rw [lookupSession_setSession_self] at hs'
        injection hs' with hs'
        subst hs'
        exact indexChange_reset rfl rfl hb
      · rw [lookupSession_setSession_ne _ _ hc, hs] at hs'
        injection hs' with hs'
        subst hs'
        exact indexChange_same rfl rfl hb
  | disconnect c =>
      have hb : storesAnswer st (.disconnect c) cid = false := rfl
      simp only [step, handle_disconnect] at hs'
      by_cases hc : cid = c
      · subst hc
        rw [lookupSession_removeSession_self] at hs'
        cases hs'
      · rw [lookupSession_removeSession_ne _ hc, hs] at hs'
        injection hs' with hs'
        subst hs'
        exact indexChange_same rfl rfl hb
  | deleteMsg c mid =>
      have hb : storesAnswer st (.deleteMsg c mid) cid = false := rfl
      have hsess : (step st (.deleteMsg c mid)).1.sessions = st.sessions :=
        sessions_handle_delete st c mid
      rw [hsess, hs] at hs'
      injection hs' with hs'
      subst hs'
      exact indexChange_same rfl rfl hb
  | deliver n =>
      have hb : storesAnswer st (.deliver n) cid = false := rfl
      have hsess : (step st (.deliver n)).1.sessions = st.sessions :=
        sessions_deliverPending st n
      rw [hsess, hs] at hs'
      injection hs' with hs'
      subst hs'
      exact indexChange_same rfl rfl hb
  | clearChat c =>
      have hb : storesAnswer st (.clearChat c) cid = false := rfl
      simp only [step] at hs'
      cases hls : lookupSession st.sessions c with
      | none =>
          simp only [handle_clear_chat, hls] at hs'
          rw [hs] at hs'
          injection hs' with hs'
          subst hs'
          exact indexChange_same rfl rfl hb
      | some t =>
          simp only [handle_clear_chat, hls] at hs'
          by_cases hc : cid = c
          · subst hc
            rw [lookupSession_setSession_self] at hs'
            injection hs' with hs'
            subst hs'
            exact indexChange_reset rfl rfl hb
          · rw [lookupSession_setSession_ne _ _ hc, hs] at hs'
            injection hs' with hs'
            subst hs'
            exact indexChange_same rfl rfl hb
  | send c raw o =>
      by_cases hraw : pyStrip raw = ""
      · have hb : storesAnswer st (.send c raw o) cid = false := by
          simp [storesAnswer, hraw]
        simp only [step, handle_send_message, if_pos hraw] at hs'
        rw [hs] at hs'
        injection hs' with hs'
        subst hs'
        exact indexChange_same rfl rfl hb
      · have hsess := congrArg (fun p => (p.1.sessions : List (String × Session)))
          (send_step_eq st c raw o hraw)
        simp only at hsess
        rw [hsess] at hs'
        by_cases hc : cid = c
        · subst hc
          rw [lookupSession_setSession_self] at hs'
          injection hs' with hs'
          subst hs'
          obtain ⟨hle, hiff⟩ := hInv _ (lookupSession_mem hs)
          simp only at hle hiff
          by_cases h1 : s.message_count + 1 = 1
          · have h1' : s.message_count = 0 := by omega
            have hb : storesAnswer st (.send cid raw o) cid = false := by
              simp [storesAnswer, hs, h1']
            refine indexChange_same ?_ ?_ hb
            · simp [sendFinalSession, hs, h1]
            · simp [sendFinalSession, hs, h1]
          · by_cases hpc : s.preferences_complete = true
            · have hb : storesAnswer st (.send cid raw o) cid = false := by
                simp [storesAnswer, hs, hpc]
              refine indexChange_same ?_ ?_ hb
              · simp [sendFinalSession, hs, h1, hpc]
              · simp [sendFinalSession, hs, h1, hpc]
            · have hpc' : s.preferences_complete = false := by
                cases hcc : s.preferences_complete
                · rfl
                · exact absurd hcc hpc
              have hne : s.current_preference_index ≠ numQuestions := by
                intro hh
                exact hpc (hiff.mpr hh)
              have h3 : s.current_preference_index < preference_questions.length := by
                simp only [numQuestions] at hle hne
                omega
              have h1' : ¬ s.message_count = 0 := by omega
              have hb : storesAnswer st (.send cid raw o) cid = true := by
                simp [storesAnswer, hs, h1', hpc', hraw]
              have hidx' : (sendFinalSession st cid raw o).current_preference_index
                  = s.current_preference_index + 1 := by
                simp [sendFinalSession, hs, h1, hpc', h3]
              by_cases h4 : preference_questions.length ≤ s.current_preference_index + 1
              · have hcomp' : (sendFinalSession st cid raw o).preferences_complete = true := by
                  simp [sendFinalSession, hs, h1, hpc', h3, h4]
                refine ⟨⟨fun _ => hb, fun _ => hidx'⟩, ?_⟩
                refine iff_of_true ⟨hpc', hcomp'⟩ ⟨hb, ?_⟩
                rw [hidx']
                simp only [numQuestions]
                omega
              · have hcomp' : (sendFinalSession st cid raw o).preferences_complete = false := by
                  simp [sendFinalSession, hs, h1, hpc', h3, h4]
                refine ⟨⟨fun _ => hb, fun _ => hidx'⟩, ?_⟩
                refine iff_of_false ?_ ?_
                · rintro ⟨_, ht⟩
                  rw [hcomp'] at ht
                  cases ht
                · rintro ⟨_, hN⟩
                  rw [hidx'] at hN
                  simp only [numQuestions] at hN
                  omega
        · have hb : storesAnswer st (.send c raw o) cid = false := by
            simp [storesAnswer]
            intro hcc
            exact absurd hcc.symm hc
          rw [lookupSession_setSession_ne _ _ hc, hs] at hs'
          injection hs' with hs'
          subst hs'
          exact indexChange_same rfl rfl hb

theorem reachable_runEvents {st : ServerState} (h : Reachable st) (es : List Event) :
    Reachable (runEvents st es) := by
  induction es generalizing st with
  | nil => exact h
  | cons e es ih => exact ih (Reachable.next e h)

/-- C4: in every reachable state, every live session keeps its next-question
index in [0, numQuestions] with the completion flag holding exactly at
numQuestions; and across any further event, the index grows by exactly one
precisely when the event stores an onboarding answer for that session, while
the completion flag flips to true precisely when the stored answer is the
final one. -/
theorem c4_onboarding_invariant (st : ServerState) (h : Reachable st) :
    (∀ p ∈ st.sessions,
      p.2.current_preference_index ≤ numQuestions ∧
        (p.2.preferences_complete = true ↔ p.2.current_preference_index = numQuestions)) ∧
    ∀ (e : Event) (cid : String) (s s' : Session),
      lookupSession st.sessions cid = some s →
      lookupSession (step st e).1.sessions cid = some s' →
        (s'.current_preference_index = s.current_preference_index + 1 ↔
          storesAnswer st e cid = true) ∧
        ((s.preferences_complete = false ∧ s'.preferences_complete = true) ↔
          (storesAnswer st e cid = true ∧ s'.current_preference_index = numQuestions)) := by
  have hInv := sessionInv_of_reachable h
  exact ⟨hInv, fun e cid s s' hs hs' => stepIndexChange hInv e cid hs hs'⟩

/-- Closed instance of C4 at a concrete reachable state: after connecting and
sending a first message, a second message stores an answer, moves the index
from 0 to 1, and does not complete onboarding. -/
theorem c4_onboarding_invariant_witness :
    (1 = 0 + 1 ↔
      storesAnswer
        (runEvents ServerState.init
          [.connect "A", .send "A" "hello" (.completed "a" "t" "ok")])
        (.send "A" "casual" (.completed "a" "t" "ok")) "A" = true) ∧
    ((false = false ∧ false = true) ↔
      (storesAnswer
        (runEvents ServerState.init
          [.connect "A", .send "A" "hello" (.completed "a" "t" "ok")])
        (.send "A" "casual" (.completed "a" "t" "ok")) "A" = true ∧
        1 = numQuestions)) :=
  (c4_onboarding_invariant _ (reachable_runEvents Reachable.base _)).2
    (.send "A" "casual" (.completed "a" "t" "ok")) "A"
    { Session.init with message_count := 1 }
    { Session.init with
        message_count := 2
        current_preference_index := 1
        preferences := { Prefs.init with tone_of_voice := some "casual" } }
    (by decide) (by decide)

/-- C10: in every reachable state, no event drives `handle_send_message`
into the fallback branch of `handle_preference_collection` (the branch that
would forward an onboarding-phase message to the news agent): onboarding
incomplete implies, by the session invariant, that the question index is
still below the question count. -/
theorem c10_fallback_unreachable (st : ServerState) (h : Reachable st) (e : Event) :
    fallbackTaken st e = false := by
  have hInv := sessionInv_of_reachable h
  cases e with
  | send c raw o =>
      by_cases hraw : pyStrip raw = ""
      · simp [fallbackTaken, hraw]
      · cases hls : lookupSession st.sessions c with
        | none => simp [fallbackTaken, hls, Session.init]
        | some s =>
            obtain ⟨hle, hiff⟩ := hInv _ (lookupSession_mem hls)
            simp only at hle hiff
            by_cases hpc : s.preferences_complete = true
            · simp [fallbackTaken, hls, hpc]
            · have hne : s.current_preference_index ≠ numQuestions := fun hh =>
                hpc (hiff.mpr hh)
              have h3 : s.current_preference_index < preference_questions.length := by
                simp only [numQuestions] at hle hne
                omega
              simp [fallbackTaken, hls, h3]
  | connect c => rfl
  | disconnect c => rfl
  | deleteMsg c mid => rfl
  | clearChat c => rfl
  | deliver n => rfl

/-- Closed instance of C10: at a concrete reachable onboarding-phase state,
a further send does not take the fallback branch. -/
theorem c10_fallback_unreachable_witness :
    fallbackTaken
      (runEvents ServerState.init
        [.connect "A", .send "A" "hello" (.completed "a" "t" "ok")])
      (.send "A" "casual" (.completed "a" "t" "ok")) = false :=
  c10_fallback_unreachable _ (reachable_runEvents Reachable.base _) _

/-- C3: starting from a fresh session, the first nonempty user message is
never stored as an onboarding answer — the session keeps its initial
preferences and index 0 and only question 0 is scheduled — and the first
stored answer, placed under question 0's key `tone_of_voice`, is the second
user message. -/
theorem c3_first_answer_from_second_message (st : ServerState) (cid m1 m2 : String)
    (o1 o2 : BackendOutcome)
    (hfresh : lookupSession st.sessions cid = none ∨
      lookupSession st.sessions cid = some Session.init)
    (h1 : pyStrip m1 ≠ "") (h2 : pyStrip m2 ≠ "") :
    lookupSession (step st (.send cid m1 o1)).1.sessions cid =
      some { Session.init with message_count := 1 } ∧
    (step st (.send cid m1 o1)).1.pending =
      st.pending ++ [⟨cid, (preference_questions.getD 0 qdefault).question, 500⟩] ∧
    lookupSession (step (step st (.send cid m1 o1)).1 (.send cid m2 o2)).1.sessions cid =
      some { Session.init with
              message_count := 2
              current_preference_index := 1
              preferences := { Prefs.init with tone_of_voice := some (pyStrip m2) } } ∧
    (preference_questions.getD 0 qdefault).key = "tone_of_voice" := by
  have hs0 : (lookupSession st.sessions cid).getD Session.init = Session.init := by
    rcases hfresh with hf | hf <;> simp [hf]
  have e1 := send_step_eq st cid m1 o1 h1
  have hfs1 : sendFinalSession st cid m1 o1 = { Session.init with message_count := 1 } := by
    unfold sendFinalSession
    rw [hs0]
    rfl
  have hsess1 : (step st (.send cid m1 o1)).1.sessions =
      setSession st.sessions cid { Session.init with message_count := 1 } := by
    rw [e1, ← hfs1]
  have hlook1 : lookupSession (step st (.send cid m1 o1)).1.sessions cid =
      some { Session.init with message_count := 1 } := by
    rw [hsess1, lookupSession_setSession_self]
  refine ⟨hlook1, ?_, ?_, rfl⟩
  · have hr1 : sendReply st cid m1 o1 = (preference_questions.getD 0 qdefault).question := by
      unfold sendReply
      rw [hs0]
      rfl
    rw [e1]
    rw [hr1]
  · have hs0' : (lookupSession (step st (.send cid m1 o1)).1.sessions cid).getD Session.init =
        { Session.init with message_count := 1 } := by
      rw [hlook1]
      rfl
    have e2 := send_step_eq (step st (.send cid m1 o1)).1 cid m2 o2 h2
    have hfs2 : sendFinalSession (step st (.send cid m1 o1)).1 cid m2 o2 =
        { Session.init with
            message_count := 2
            current_preference_index := 1
            preferences := { Prefs.init with tone_of_voice := some (pyStrip m2) } } := by
      unfold sendFinalSession
      rw [hs0']
      rfl
    rw [e2, ← hfs2]
    exact lookupSession_setSession_self _ _ _

/-- Closed instance of C3 on the scenario of the spec: "hello" then
"formal" from a fresh connection. -/
theorem c3_first_answer_from_second_message_witness :
    lookupSession (step ServerState.init
        (.send "A" "hello" (.completed "a" "t" "ok"))).1.sessions "A" =
      some { Session.init with message_count := 1 } ∧
    (step ServerState.init (.send "A" "hello" (.completed "a" "t" "ok"))).1.pending =
      ServerState.init.pending ++
        [⟨"A", (preference_questions.getD 0 qdefault).question, 500⟩] ∧
    lookupSession (step (step ServerState.init
          (.send "A" "hello" (.completed "a" "t" "ok"))).1
        (.send "A" "formal" (.completed "a" "t" "ok"))).1.sessions "A" =
      some { Session.init with
              message_count := 2
              current_preference_index := 1
              preferences := { Prefs.init with tone_of_voice := some (pyStrip "formal") } } ∧
    (preference_questions.getD 0 qdefault).key = "tone_of_voice" :=
  c3_first_answer_from_second_message ServerState.init "A" "hello" "formal"
    (.completed "a" "t" "ok") (.completed "a" "t" "ok")
    (Or.inl rfl) (by decide) (by decide)

/-- Two-client scenario used for the clear claims: A and B connect, B
answers two onboarding questions. -/
def clearScenario : ServerState :=
  runEvents ServerState.init
    [.connect "A", .connect "B",
     .send "B" "hello" (.completed "a" "t" "ok"),
     .send "B" "casual" (.completed "a" "t" "ok"),
     .send "B" "bullets" (.completed "a" "t" "ok")]

/-- C1 as stated is false: a clear requested by connection A empties the
store but leaves connection B's live session onboarding state untouched
(question index still 2 and two stored answers, instead of the initial
values). -/
theorem c1_counterexample :
    (step clearScenario (.clearChat "A")).1.messages = [] ∧
    lookupSession (step clearScenario (.clearChat "A")).1.sessions "B" =
      some { Session.init with
              message_count := 3
              current_preference_index := 2
              preferences := { Prefs.init with
                                tone_of_voice := some "casual"
                                response_format := some "bullets" } } ∧
    ({ Session.init with
        message_count := 3
        current_preference_index := 2
        preferences := { Prefs.init with
                          tone_of_voice := some "casual"
                          response_format := some "bullets" } } : Session).current_preference_index
      ≠ Session.init.current_preference_index := by
  refine ⟨?_, ?_, ?_⟩ <;> decide

/-- C1 (amended): `clear_chat` empties the entire shared store, but resets
the onboarding/preference state of the requesting connection's session only;
every other live session is left exactly as it was. -/
theorem c1_clear_resets_only_requester (st : ServerState) (cid : String) :
    (step st (.clearChat cid)).1.messages = [] ∧
    (∀ s, lookupSession st.sessions cid = some s →
      lookupSession (step st (.clearChat cid)).1.sessions cid =
        some { s with
                preferences_complete := false
                current_preference_index := 0
                message_count := 0
                preferences := Prefs.init }) ∧
    (∀ cid' s, cid' ≠ cid → lookupSession st.sessions cid' = some s →
      lookupSession (step st (.clearChat cid)).1.sessions cid' = some s) := by
  refine ⟨?_, ?_, ?_⟩
  · simp only [step]
    cases hls : lookupSession st.sessions cid <;> simp [handle_clear_chat, hls]
  · intro s hs
    simp only [step, handle_clear_chat, hs]
    exact lookupSession_setSession_self _ _ _
  · intro cid' s hne hs
    simp only [step]
    cases hls : lookupSession st.sessions cid with
    | none => simpa [handle_clear_chat, hls] using hs
    | some t =>
        simp only [handle_clear_chat, hls]
        rw [lookupSession_setSession_ne _ _ hne]
        exact hs

/-- Closed instance of the amended C1 on the two-client scenario: the store
is emptied, A's session is reset, B's session survives unchanged. -/
theorem c1_clear_resets_only_requester_witness :
    (step clearScenario (.clearChat "A")).1.messages = [] ∧
    lookupSession (step clearScenario (.clearChat "A")).1.sessions "A" =
      some { Session.init with
              preferences_complete := false
              current_preference_index := 0
              message_count := 0
              preferences := Prefs.init } ∧
    lookupSession (step clearScenario (.clearChat "A")).1.sessions "B" =
      some { Session.init with
              message_count := 3
              current_preference_index := 2
              preferences := { Prefs.init with
                                tone_of_voice := some "casual"
                                response_format := some "bullets" } } :=
  ⟨(c1_clear_resets_only_requester clearScenario "A").1,
   (c1_clear_resets_only_requester clearScenario "A").2.1 Session.init (by decide),
   (c1_clear_resets_only_requester clearScenario "A").2.2 "B"
     { Session.init with
        message_count := 3
        current_preference_index := 2
        preferences := { Prefs.init with
                          tone_of_voice := some "casual"
                          response_format := some "bullets" } }
     (by decide) (by decide)⟩

/-- Scenario for the broadcast claims: two clients connect and A sends a
first message, leaving question 0's prompt pending for A. -/
def broadcastScenario : ServerState :=
  runEvents ServerState.init
    [.connect "A", .connect "B", .send "A" "hello" (.completed "a" "t" "ok")]

/-- C2 as stated is false: when the pending bot reply fires, the bot message
is appended to the store but its `new_message` emission goes only to the
scheduled client (`room=client_id`), not to all connected clients. -/
theorem c2_counterexample :
    (step broadcastScenario (.deliver 0)).1.messages =
      broadcastScenario.messages ++
        [⟨1, (preference_questions.getD 0 qdefault).question, "Assistant", "assistant", 1⟩] ∧
    (step broadcastScenario (.deliver 0)).2 =
      [Emit.newMessage (Target.toClient "A")
        ⟨1, (preference_questions.getD 0 qdefault).question, "Assistant", "assistant", 1⟩] ∧
    Target.toClient "A" ≠ Target.all := by
  refine ⟨?_, ?_, ?_⟩ <;> decide

/-- C2 (amended): every stored user message is broadcast as `new_message`
to all connected clients, while every stored bot message is emitted as
`new_message` only to the client its delivery was scheduled for. -/
theorem c2_user_broadcast_bot_targeted :
    (∀ (st : ServerState) (cid raw : String) (o : BackendOutcome), pyStrip raw ≠ "" →
      (step st (.send cid raw o)).1.messages =
        st.messages ++ [sendUserMessage st (pyStrip raw)] ∧
      (sendUserMessage st (pyStrip raw)).user_id = "user" ∧
      Emit.newMessage Target.all (sendUserMessage st (pyStrip raw)) ∈
        (step st (.send cid raw o)).2) ∧
    (∀ (st : ServerState) (n : Nat) (d : Sched), st.pending[n]? = some d →
      ∃ m : Message, (step st (.deliver n)).1.messages = st.messages ++ [m] ∧
        m.user_id = "assistant" ∧
        (step st (.deliver n)).2 = [Emit.newMessage (Target.toClient d.target) m]) := by
  constructor
  · intro st cid raw o hne
    have e := send_step_eq st cid raw o hne
    refine ⟨?_, rfl, ?_⟩
    · rw [e]
    · rw [e]
      exact List.mem_cons_self _ _
  · intro st n d hp
    refine ⟨⟨st.nextId, d.content, "Assistant", "assistant", st.nextId⟩, ?_, rfl, ?_⟩
    · simp only [step, deliverPending, hp]
    · simp only [step, deliverPending, hp]

/-- Closed instance of the amended C2: a user send is broadcast to all, a
fired bot delivery is emitted only to its scheduled client. -/
theorem c2_user_broadcast_bot_targeted_witness :
    ((step ServerState.init (.send "A" "hi" (.completed "a" "t" "ok"))).1.messages =
      ServerState.init.messages ++ [sendUserMessage ServerState.init (pyStrip "hi")] ∧
      (sendUserMessage ServerState.init (pyStrip "hi")).user_id = "user" ∧
      Emit.newMessage Target.all (sendUserMessage ServerState.init (pyStrip "hi")) ∈
        (step ServerState.init (.send "A" "hi" (.completed "a" "t" "ok"))).2) ∧
    (∃ m : Message,
      (step broadcastScenario (.deliver 0)).1.messages = broadcastScenario.messages ++ [m] ∧
      m.user_id = "assistant" ∧
      (step broadcastScenario (.deliver 0)).2 =
        [Emit.newMessage (Target.toClient
          (⟨"A", (preference_questions.getD 0 qdefault).question, 500⟩ : Sched).target) m]) :=
  ⟨c2_user_broadcast_bot_targeted.1 ServerState.init "A" "hi" (.completed "a" "t" "ok")
    (by decide),
   c2_user_broadcast_bot_targeted.2 broadcastScenario 0
     ⟨"A", (preference_questions.getD 0 qdefault).question, 500⟩ (by decide)⟩

theorem findDelete_notFound {l : List Message} {mid : Nat}
    (h : ∀ m ∈ l, m.id ≠ mid) : findDelete l mid = .notFound := by
  induction l with
  | nil => rfl
  | cons a l ih =>
      have ha : a.id ≠ mid := h a (List.mem_cons_self _ _)
      simp only [findDelete, if_neg ha,
        ih (fun m hm => h m (List.mem_cons_of_mem _ hm))]

theorem findDelete_permissionDenied {l : List Message} {mid : Nat} {m : Message}
    (hnd : (l.map Message.id).Nodup) (hm : m ∈ l) (hid : m.id = mid)
    (hrole : ¬ m.user_id = "user") : findDelete l mid = .permissionDenied := by
  induction l with
  | nil => cases hm
  | cons a l ih =>
      rw [List.map_cons, List.nodup_cons] at hnd
      obtain ⟨hna, hnd'⟩ := hnd
      rcases List.mem_cons.mp hm with rfl | hm'
      · simp only [findDelete, if_pos hid, if_neg hrole]
      · have ha : a.id ≠ mid := by
          intro hh
          apply hna
          rw [hh, ← hid]
          exact List.mem_map_of_mem _ hm'
        simp only [findDelete, if_neg ha, ih hnd' hm']

theorem findDelete_deleted {l : List Message} {mid : Nat} {m : Message}
    (hnd : (l.map Message.id).Nodup) (hm : m ∈ l) (hid : m.id = mid)
    (hrole : m.user_id = "user") :
    ∃ l1 l2, l = l1 ++ m :: l2 ∧ findDelete l mid = .deleted (l1 ++ l2) ∧
      ∀ x ∈ l1 ++ l2, x.id ≠ mid := by
  induction l with
  | nil => cases hm
  | cons a l ih =>
      rw [List.map_cons, List.nodup_cons] at hnd
      obtain ⟨hna, hnd'⟩ := hnd
      rcases List.mem_cons.mp hm with rfl | hm'
      · refine ⟨[], l, rfl, ?_, ?_⟩
        · simp only [findDelete, if_pos hid, if_pos hrole, List.nil_append]
        · intro x hx hxid
          apply hna
          rw [hid, ← hxid]
          exact List.mem_map_of_mem _ (by simpa using hx)
      · have ha : a.id ≠ mid := by
          intro hh
          apply hna
          rw [hh, ← hid]
          exact List.mem_map_of_mem _ hm'
        obtain ⟨l1, l2, hl, hfd, hrest⟩ := ih hnd' hm'
        refine ⟨a :: l1, l2, by rw [hl, List.cons_append], ?_, ?_⟩
        · simp only [findDelete, if_neg ha, hfd, List.cons_append]
        · intro x hx
          rw [List.cons_append, List.mem_cons] at hx
          rcases hx with rfl | hx'
          · exact ha
          · exact hrest x hx'

/-- C5: with globally unique message ids, a delete targeting an
assistant-authored message fails with the permission error and leaves the
store unchanged; a delete targeting an absent id fails with the not-found
error and leaves the store unchanged; a delete targeting a user-authored
message removes exactly that message and an immediate retry with the same id
fails with the not-found error. -/
theorem c5_delete_semantics (st : ServerState) (cid : String) (mid : Nat)
    (hnd : (st.messages.map Message.id).Nodup) :
    (∀ m ∈ st.messages, m.id = mid → m.user_id = "assistant" →
      handle_delete_message st cid (some mid) =
        (st, [Emit.errorMsg cid "You can only delete your own messages"])) ∧
    ((∀ m ∈ st.messages, m.id ≠ mid) →
      handle_delete_message st cid (some mid) =
        (st, [Emit.errorMsg cid "Message not found"])) ∧
    (∀ m ∈ st.messages, m.id = mid → m.user_id = "user" →
      ∃ l1 l2, st.messages = l1 ++ m :: l2 ∧
        handle_delete_message st cid (some mid) =
          ({ st with messages := l1 ++ l2 }, [Emit.messageDeleted mid]) ∧
        handle_delete_message { st with messages := l1 ++ l2 } cid (some mid) =
          ({ st with messages := l1 ++ l2 },
           [Emit.errorMsg cid "Message not found"])) := by
  refine ⟨?_, ?_, ?_⟩
  · intro m hm hid hrole
    have hfd : findDelete st.messages mid = .permissionDenied :=
      findDelete_permissionDenied hnd hm hid (by
        intro hu
        rw [hrole] at hu
        exact absurd hu (by decide))
    simp [handle_delete_message, hfd]
  · intro h
    have hfd : findDelete st.messages mid = .notFound := findDelete_notFound h
    simp [handle_delete_message, hfd]
  · intro m hm hid hrole
    obtain ⟨l1, l2, hl, hfd, hrest⟩ := findDelete_deleted hnd hm hid hrole
    refine ⟨l1, l2, hl, ?_, ?_⟩
    · simp [handle_delete_message, hfd]
    · have hfd' : findDelete (l1 ++ l2) mid = .notFound := findDelete_notFound hrest
      simp [handle_delete_message, hfd']

/-- Concrete store for the C5 witness: one user message, one bot message. -/
def deleteScenario : ServerState :=
  ⟨[⟨0, "hi", "User", "user", 0⟩, ⟨1, "yo", "Assistant", "assistant", 1⟩], [], 2, []⟩

/-- Closed instance of C5: deleting the bot message is refused, deleting an
unknown id is not found, deleting the user message removes exactly it and a
retry is not found. -/
theorem c5_delete_semantics_witness :
    handle_delete_message deleteScenario "C" (some 1) =
      (deleteScenario, [Emit.errorMsg "C" "You can only delete your own messages"]) ∧
    handle_delete_message deleteScenario "C" (some 5) =
      (deleteScenario, [Emit.errorMsg "C" "Message not found"]) ∧
    (∃ l1 l2, deleteScenario.messages = l1 ++ ⟨0, "hi", "User", "user", 0⟩ :: l2 ∧
      handle_delete_message deleteScenario "C" (some 0) =
        ({ deleteScenario with messages := l1 ++ l2 }, [Emit.messageDeleted 0]) ∧
      handle_delete_message { deleteScenario with messages := l1 ++ l2 } "C" (some 0) =
        ({ deleteScenario with messages := l1 ++ l2 },
         [Emit.errorMsg "C" "Message not found"])) :=
  ⟨(c5_delete_semantics deleteScenario "C" 1 (by decide)).1
      ⟨1, "yo", "Assistant", "assistant", 1⟩ (by decide) rfl rfl,
   (c5_delete_semantics deleteScenario "C" 5 (by decide)).2.1 (by decide),
   (c5_delete_semantics deleteScenario "C" 0 (by decide)).2.2
      ⟨0, "hi", "User", "user", 0⟩ (by decide) rfl rfl⟩

/-- C6 as stated is false: the handler stores `data.get` content only after
`strip()`, so a payload with surrounding whitespace is not stored character
for character. Sending " formal " as the collecting-phase answer stores
"formal". -/
theorem c6_counterexample :
    lookupSession
      (runEvents ServerState.init
        [.connect "A",
         .send "A" "hello" (.completed "a" "t" "ok"),
         .send "A" " formal " (.completed "a" "t" "ok")]).sessions "A" =
      some { Session.init with
              message_count := 2
              current_preference_index := 1
              preferences := { Prefs.init with tone_of_voice := some "formal" } } ∧
    some "formal" ≠ some " formal " := by
  refine ⟨?_, ?_⟩ <;> decide

/-- C6 (amended): in collecting state with index i, a nonempty send stores
the content stripped of surrounding whitespace under the i-th question's
key, advances the index, and the `preference_update` emission carrying that
key and value goes only to the originating connection. -/
theorem c6_collecting_stores_stripped (st : ServerState) (cid raw : String)
    (o : BackendOutcome) (s : Session)
    (hs : lookupSession st.sessions cid = some s)
    (hmc : ¬ s.message_count = 0) (hpc : s.preferences_complete = false)
    (hi : s.current_preference_index < preference_questions.length)
    (hne : pyStrip raw ≠ "") :
    ∃ s', lookupSession (step st (.send cid raw o)).1.sessions cid = some s' ∧
      s'.preferences = Prefs.set s.preferences
        (preference_questions.getD s.current_preference_index qdefault).key (pyStrip raw) ∧
      s'.current_preference_index = s.current_preference_index + 1 ∧
      (step st (.send cid raw o)).2 =
        [Emit.newMessage Target.all (sendUserMessage st (pyStrip raw)),
         Emit.preferenceUpdate cid
           (preference_questions.getD s.current_preference_index qdefault).key
           (pyStrip raw)] := by
  have e := send_step_eq st cid raw o hne
  have h1 : ¬ (s.message_count + 1 = 1) := by omega
  refine ⟨sendFinalSession st cid raw o, ?_, ?_, ?_, ?_⟩
  · rw [e]
    exact lookupSession_setSession_self _ _ _
  · simp [sendFinalSession, hs, h1, hpc, hi]
  · simp [sendFinalSession, hs, h1, hpc, hi]
  · have hextra : sendExtraEmits st cid raw =
        [Emit.preferenceUpdate cid
          (preference_questions.getD s.current_preference_index qdefault).key
          (pyStrip raw)] := by
      simp [sendExtraEmits, hs, h1, hpc, hi]
    rw [e]
    rw [hextra]

/-- Closed instance of the amended C6: the second message "formal" is stored
stripped under `tone_of_voice` and the `preference_update` goes to the
sender only. -/
theorem c6_collecting_stores_stripped_witness :
    ∃ s', lookupSession
        (step (runEvents ServerState.init
            [.connect "A", .send "A" "hello" (.completed "a" "t" "ok")])
          (.send "A" "formal" (.completed "a" "t" "ok"))).1.sessions "A" = some s' ∧
      s'.preferences = Prefs.set { Session.init with message_count := 1 }.preferences
        (preference_questions.getD
          { Session.init with message_count := 1 }.current_preference_index qdefault).key
        (pyStrip "formal") ∧
      s'.current_preference_index =
        { Session.init with message_count := 1 }.current_preference_index + 1 ∧
      (step (runEvents ServerState.init
          [.connect "A", .send "A" "hello" (.completed "a" "t" "ok")])
        (.send "A" "formal" (.completed "a" "t" "ok"))).2 =
        [Emit.newMessage Target.all
          (sendUserMessage (runEvents ServerState.init
            [.connect "A", .send "A" "hello" (.completed "a" "t" "ok")]) (pyStrip "formal")),
         Emit.preferenceUpdate "A"
           (preference_questions.getD
             { Session.init with message_count := 1 }.current_preference_index qdefault).key
           (pyStrip "formal")] :=
  c6_collecting_stores_stripped
    (runEvents ServerState.init
      [.connect "A", .send "A" "hello" (.completed "a" "t" "ok")])
    "A" "formal" (.completed "a" "t" "ok")
    { Session.init with message_count := 1 }
    (by decide) (by decide) rfl (by decide) (by decide)

theorem append_left_ne_empty (a b : String) (ha : a ≠ "") : a ++ b ≠ "" := by
  intro h
  apply ha
  have hd := congrArg String.data h
  rw [String.data_append] at hd
  exact String.ext (List.append_eq_nil.mp hd).1

theorem process_message_fst (t : Option String) (u : String) (p : Prefs)
    (o : BackendOutcome) : (process_message t u p o).1 = failureMessage o := by
  cases o <;> rfl

theorem failureMessage_ne_empty {o : BackendOutcome} (h : isBackendFailure o = true) :
    failureMessage o ≠ "" := by
  cases o with
  | exn e => exact append_left_ne_empty _ _ (by decide)
  | submitExn aid tid e => exact append_left_ne_empty _ _ (by decide)
  | runFailed aid tid status => exact append_left_ne_empty _ _ (by decide)
  | noMessages aid tid =>
      intro hh
      have hh' : ("I apologize, but I couldn\x27t retrieve the response." : String) = "" := hh
      exact absurd (congrArg String.length hh') (by decide)
  | noContent aid tid =>
      intro hh
      have hh' : ("I apologize, but I couldn\x27t generate a response." : String) = "" := hh
      exact absurd (congrArg String.length hh') (by decide)
  | completed aid tid text => cases h

/-- C7 (amended): for every backend failure (exception, tool-output failure,
failed run status, missing messages or content), the dispatcher never raises
and emits nothing to the connection layer; it schedules exactly one
nonempty bot reply carrying the failure message, and the session keeps its
preferences, completion flag, question index and message count, so it stays
usable. The reply is apologetic only for the missing-content failures; for
exceptions, tool-output failures and failed run statuses it is a plain
error description. -/
theorem c7_backend_failure_recovered (st : ServerState) (cid input : String)
    (o : BackendOutcome) (s : Session)
    (hs : lookupSession st.sessions cid = some s) (hf : isBackendFailure o = true) :
    ∃ s', lookupSession (process_with_news_agent st cid input o).1.sessions cid = some s' ∧
      s'.preferences = s.preferences ∧
      s'.preferences_complete = s.preferences_complete ∧
      s'.current_preference_index = s.current_preference_index ∧
      s'.message_count = s.message_count ∧
      (process_with_news_agent st cid input o).1.pending =
        st.pending ++ [⟨cid, failureMessage o, 500⟩] ∧
      (process_with_news_agent st cid input o).2 = [] ∧
      failureMessage o ≠ "" := by
  refine ⟨{ s with
      thread_id := match (process_message s.thread_id input s.preferences o).2.thread_id with
        | some t => some t
        | none => s.thread_id
      assistant_id :=
        match (process_message s.thread_id input s.preferences o).2.assistant_id with
        | some a => some a
        | none => s.assistant_id },
    ?_, rfl, rfl, rfl, rfl, ?_, ?_, failureMessage_ne_empty hf⟩
  · simp only [process_with_news_agent, hs, send_bot_response]
    exact lookupSession_setSession_self _ _ _
  · simp only [process_with_news_agent, hs, send_bot_response]
    rw [process_message_fst]
  · simp only [process_with_news_agent, hs, send_bot_response]

/-- A state whose single session has completed onboarding, so sends are
dispatched to the news agent. -/
def completeScenario : ServerState :=
  ⟨[], [("A", { Session.init with
                 preferences_complete := true
                 current_preference_index := 5
                 message_count := 6 })], 0, []⟩

/-- Closed instance of the amended C7: a failed-status backend outcome is
turned into a scheduled nonempty bot reply, nothing is emitted to the
connection layer, and the session state is untouched. -/
theorem c7_backend_failure_recovered_witness :
    ∃ s', lookupSession (process_with_news_agent completeScenario "A" "news"
        (.runFailed "aid" "tid" "failed")).1.sessions "A" = some s' ∧
      s'.preferences = ({ Session.init with
          preferences_complete := true
          current_preference_index := 5
          message_count := 6 } : Session).preferences ∧
      s'.preferences_complete = ({ Session.init with
          preferences_complete := true
          current_preference_index := 5
          message_count := 6 } : Session).preferences_complete ∧
      s'.current_preference_index = ({ Session.init with
          preferences_complete := true
          current_preference_index := 5
          message_count := 6 } : Session).current_preference_index ∧
      s'.message_count = ({ Session.init with
          preferences_complete := true
          current_preference_index := 5
          message_count := 6 } : Session).message_count ∧
      (process_with_news_agent completeScenario "A" "news"
        (.runFailed "aid" "tid" "failed")).1.pending =
        completeScenario.pending ++
          [⟨"A", failureMessage (.runFailed "aid" "tid" "failed"), 500⟩] ∧
      (process_with_news_agent completeScenario "A" "news"
        (.runFailed "aid" "tid" "failed")).2 = [] ∧
      failureMessage (.runFailed "aid" "tid" "failed") ≠ "" :=
  c7_backend_failure_recovered completeScenario "A" "news"
    (.runFailed "aid" "tid" "failed")
    { Session.init with
        preferences_complete := true
        current_preference_index := 5
        message_count := 6 }
    rfl rfl

/-- A full onboarding run for connection A: the first message triggers
question 0, the next five answer all questions. -/
def newsScenario : ServerState :=
  runEvents ServerState.init
    [.connect "A",
     .send "A" "hello" (.completed "a" "t" "ok"),
     .send "A" "formal" (.completed "a" "t" "ok"),
     .send "A" "bullet points" (.completed "a" "t" "ok"),
     .send "A" "English" (.completed "a" "t" "ok"),
     .send "A" "concise" (.completed "a" "t" "ok"),
     .send "A" "technology" (.completed "a" "t" "ok")]

/-- C7 as stated is false: when the backend reports a failed run status the
bot reply delivered in place of the answer is "Assistant run failed with
status: failed", which is a plain error description, not an apologetic
message. -/
theorem c7_counterexample :
    (step newsScenario
        (.send "A" "tell me about space news"
          (.runFailed "aid" "tid" "failed"))).1.pending.getLast? =
      some ⟨"A", "Assistant run failed with status: failed", 500⟩ ∧
    mentionsApology "Assistant run failed with status: failed" = false ∧
    isBackendFailure (.runFailed "aid" "tid" "failed") = true := by
  refine ⟨?_, ?_, ?_⟩ <;> decide

/-- Parameters of `NewsAgent.__init__` besides `self` (agent.py line 13:
`def __init__(self):`). -/
def newsAgentInitParamCount : Nat := 0

/-- Positional arguments passed at the module-level construction
`news_agent = NewsAgent({...})` of server.py (lines 22-28): one dict. -/
def serverNewsAgentArgCount : Nat := 1

/-- Result of evaluating a Python call. -/
inductive PyCallResult where
  | ok
  | typeError
deriving DecidableEq, Repr

/-- Python positional-call binding for a function declared with no default
values and no varargs: the call binds exactly when the argument count
matches the parameter count, and raises TypeError otherwise. -/
def callNewsAgentInit (nargs : Nat) : PyCallResult :=
  if nargs = newsAgentInitParamCount then .ok else .typeError

/-- The module-level construction of the server's agent. -/
def serverNewsAgentConstruction : PyCallResult :=
  callNewsAgentInit serverNewsAgentArgCount

/-- C9: the construction `NewsAgent({...})` in server.py always raises:
`NewsAgent.__init__` accepts no parameter besides `self` while the server
passes one positional argument, so the call never binds and the server
never obtains its agent instance. -/
theorem c9_agent_construction_always_fails :
    serverNewsAgentConstruction = PyCallResult.typeError := rfl
